import Mathlib

/-!
Verification development for the vp-suite repository.

Shallow embedding of:
- the UNet segmentation model of src/models/seg_model.py at the level of
  tensor shapes (batch, channels, height, width), with the exact output-size
  arithmetic of the torch layers it instantiates;
- the training orchestration loop of src/main.py (checkpoint-on-improvement
  and the learning-rate decay at epoch 25);
- the SynpickDataset collaborator of src/dataset.py (constructor keyword
  binding, sorted-directory pairing, and the mask tensor layout produced by
  to_torch);
- the value-range scaling adapters and check_model_compatibility of
  src/vp_suite/utils/utils.py.

Machine floats of the original code are modelled by exact rationals.
-/

/-! ## Tensor shapes and torch layer shape semantics (src/models/seg_model.py) -/

/-- Shape of a rank-4 batched tensor (batch, channels, height, width). -/
structure TensorShape where
  b : Nat
  c : Nat
  h : Nat
  w : Nat
deriving DecidableEq, Repr

/-- Output shape of torch.nn.Conv2d with square kernel k, stride s, padding p:
spatial size (d + 2p - k) / s + 1 (floor division), channels cin -> cout.
None when the input channel count does not match, or the padded input is
smaller than the kernel (torch raises a RuntimeError there). -/
def conv2dShape (cin cout k s p : Nat) (x : TensorShape) : Option TensorShape :=
  if x.c = cin ∧ k ≤ x.h + 2 * p ∧ k ≤ x.w + 2 * p then
    some ⟨x.b, cout, (x.h + 2 * p - k) / s + 1, (x.w + 2 * p - k) / s + 1⟩
  else none

/-- Output shape of torch.nn.MaxPool2d with kernel k and stride s (no padding):
spatial size (d - k) / s + 1. None when the input is smaller than the kernel. -/
def maxPool2dShape (k s : Nat) (x : TensorShape) : Option TensorShape :=
  if k ≤ x.h ∧ k ≤ x.w then
    some ⟨x.b, x.c, (x.h - k) / s + 1, (x.w - k) / s + 1⟩
  else none

/-- Output shape of torch.nn.ConvTranspose2d with kernel k, stride s, no
padding: spatial size (d - 1) * s + k, channels cin -> cout. -/
def convTranspose2dShape (cin cout k s : Nat) (x : TensorShape) : Option TensorShape :=
  if x.c = cin then
    some ⟨x.b, cout, (x.h - 1) * s + k, (x.w - 1) * s + k⟩
  else none

/-- DoubleConv of seg_model.py: two Conv2d(k=3, s=1, p=1) layers (each followed
by BatchNorm2d and ReLU, which preserve shape), cin -> cout -> cout. -/
def doubleConvShape (cin cout : Nat) (x : TensorShape) : Option TensorShape :=
  (conv2dShape cin cout 3 1 1 x).bind (conv2dShape cout cout 3 1 1)

/-- torchvision.transforms.functional.resize to a target (h, w): interpolation
changes the spatial size only. -/
def tfResizeShape (h w : Nat) (x : TensorShape) : TensorShape :=
  ⟨x.b, x.c, h, w⟩

/-- torch.cat along dim 1: channel counts add; batch and spatial sizes must
agree (torch raises a RuntimeError otherwise). -/
def catChannels (a x : TensorShape) : Option TensorShape :=
  if a.b = x.b ∧ a.h = x.h ∧ a.w = x.w then
    some ⟨a.b, a.c + x.c, a.h, a.w⟩
  else none

/-- Encoder path of UNet.forward: for each feature width, apply DoubleConv,
record the result as a skip connection, then 2x2/stride-2 max pooling.
Returns the list of skip shapes (in production order) and the final pooled
shape. -/
def unetDown : List Nat → Nat → TensorShape → Option (List TensorShape × TensorShape)
  | [], _, x => some ([], x)
  | f :: fs, cin, x =>
    (doubleConvShape cin f x).bind fun skip =>
    (maxPool2dShape 2 2 skip).bind fun pooled =>
    (unetDown fs f pooled).map fun p => (skip :: p.1, p.2)

/-- Decoder path of UNet.forward, consuming (feature width, skip shape) pairs
in reversed order. Each stage: ConvTranspose2d(f*2 -> f, k=2, s=2); if the
resulting shape differs from the skip connection shape, TF.resize to the skip
connection spatial size; concatenate along channels; DoubleConv(f*2 -> f). -/
def unetUp : List (Nat × TensorShape) → TensorShape → Option TensorShape
  | [], x => some x
  | (f, skip) :: rest, x =>
    (convTranspose2dShape (f * 2) f 2 2 x).bind fun up =>
    let up2 := if up = skip then up else tfResizeShape skip.h skip.w up
    (catChannels skip up2).bind fun cc =>
    (doubleConvShape (f * 2) f cc).bind fun y =>
    unetUp rest y

/-- Full shape semantics of UNet.forward for a UNet built with the given
feature widths, in_channels inC and out_channels outC: encoder, bottleneck
DoubleConv(features.last -> features.last * 2), decoder over the reversed
skip list, final Conv2d(features.head -> outC, k=1). -/
def unetForwardShape (features : List Nat) (inC outC : Nat) (x : TensorShape) :
    Option TensorShape :=
  (features.getLast?).bind fun fLast =>
  (features.head?).bind fun fHead =>
  (unetDown features inC x).bind fun p =>
  (doubleConvShape fLast (fLast * 2) p.2).bind fun bneck =>
  (unetUp (features.reverse.zip p.1.reverse) bneck).bind fun y =>
  conv2dShape fHead outC 1 1 0 y

/-! ## Training orchestration (src/main.py)

main initializes max_accuracy = 0 and, per epoch: trains every batch with the
optimizer's current learning rate, validates, overwrites the checkpoint file
best_model.pth when max_accuracy < accuracy (updating max_accuracy), and at
the end of the epoch-25 body multiplies the learning rate by 0.1. After the
loop it unconditionally loads best_model.pth. -/

/-- The per-epoch checkpoint decision of src/main.py lines 64-67: given the
best accuracy so far and this epoch's validation accuracy, return the new
best and whether torch.save was executed. -/
def checkpointStep (best acc : ℚ) : ℚ × Bool :=
  if best < acc then (acc, true) else (best, false)

/-- Folding checkpointStep over the per-epoch validation accuracies: final
best accuracy and the per-epoch write flags, in epoch order. -/
def trainFold : List ℚ → ℚ → ℚ × List Bool
  | [], best => (best, [])
  | acc :: rest, best =>
    let s := checkpointStep best acc
    let r := trainFold rest s.1
    (r.1, s.2 :: r.2)

/-- The single checkpoint path used by main: out_dir / best_model.pth. -/
def bestModelFile : String := "best_model.pth"

/-- Files present in the run directory after the training loop: main writes
only best_model.pth, and only when at least one epoch improved on the
initial best of 0. -/
def runDirFiles (accs : List ℚ) : List String :=
  if (trainFold accs 0).2.any (fun x => x) then [bestModelFile] else []

/-- torch.load of the checkpoint in the final-testing step: fails when the
file was never written. main wraps it in no exception handler. -/
def torchLoadBest (files : List String) : Except String Unit :=
  if bestModelFile ∈ files then Except.ok () else Except.error "FileNotFoundError"

/-- The learning-rate behaviour of the training loop of src/main.py: epochs
consume the current rate, and the statement at the END of the epoch body
multiplies the rate by 0.1 when the epoch index equals 25. Arguments:
remaining epochs, current epoch index, current rate. Returns the rate that
was effective during each epoch, in epoch order, and the list of epoch
indices at which the decay statement executed. -/
def epochLrs : Nat → Nat → ℚ → List ℚ × List Nat
  | 0, _, _ => ([], [])
  | n + 1, i, lr =>
    let decayed := if i = 25 then lr * (1 / 10) else lr
    let r := epochLrs n (i + 1) decayed
    (lr :: r.1, if i = 25 then i :: r.2 else r.2)

/-! ## SynpickDataset (src/dataset.py) -/

/-- sorted(os.listdir(dir)): the directory listing in lexicographic order. -/
def pySorted (listing : List String) : List String :=
  listing.mergeSort (fun a b => decide (a ≤ b))

/-- os.path.join for a directory and a relative file name. -/
def osPathJoin (d f : String) : String := d ++ "/" ++ f

/-- The parts of SynpickDataset state that pairing depends on: the two
independently sorted path lists built in __init__. -/
structure SynpickState where
  images_fps : List String
  masks_fps : List String

/-- SynpickDataset.__init__ lines 16-19: sort each directory listing
independently and join each entry onto its directory. No comparison of the
two listings is performed. -/
def synpickInit (images_dir masks_dir : String)
    (imagesListing masksListing : List String) : SynpickState :=
  ⟨(pySorted imagesListing).map (osPathJoin images_dir),
   (pySorted masksListing).map (osPathJoin masks_dir)⟩

/-- The (image path, mask path) pair that __getitem__ reads for index i:
position i of each sorted list, with no correspondence check; none models
the IndexError when i is out of range of either list. -/
def synpickGetPair (st : SynpickState) (i : Nat) : Option (String × String) :=
  match st.images_fps.get? i, st.masks_fps.get? i with
  | some a, some b => some (a, b)
  | _, _ => none

/-- The parameters of SynpickDataset.__init__ that have no default value. -/
def synpickRequiredParams : List String := ["images_dir", "masks_dir"]

/-- The parameters of SynpickDataset.__init__ that have a default value. -/
def synpickOptionalParams : List String := ["classes", "augmentation", "preprocessing"]

/-- The keyword-argument names of the call
SynpickDataset(data_dir=..., augmentation=...) in src/main.py lines 23-24. -/
def mainSynpickCallKwargs : List String := ["data_dir", "augmentation"]

/-- Python keyword-argument binding for a call that passes no positional
arguments: a TypeError for the first keyword that is not a parameter name,
else a TypeError for the first required parameter left unbound. -/
def pythonBindKwargs (required optionalP kwargs : List String) : Except String Unit :=
  match kwargs.find? (fun k => !(required.contains k || optionalP.contains k)) with
  | some k => Except.error ("TypeError: unexpected keyword argument " ++ k)
  | none =>
    match required.find? (fun r => !(kwargs.contains r)) with
    | some r => Except.error ("TypeError: missing required argument " ++ r)
    | none => Except.ok ()

/-- SynpickDataset.CLASSES: object_1 .. object_21. -/
def synpickCLASSES : List String := (List.range 21).map (fun i => "object_" ++ toString (i + 1))

/-- Line 22 of src/dataset.py: iterate over the classes argument, looking
each lowered name up in CLASSES and adding 1. With the default classes=None
the iteration itself raises a TypeError; a name absent from CLASSES raises a
ValueError (list.index). -/
def synpickClassValues (classes : Option (List String)) : Except String (List Nat) :=
  match classes with
  | none => Except.error "TypeError: NoneType is not iterable"
  | some cs => cs.mapM (fun c =>
      match synpickCLASSES.findIdx? (fun s => s == c.toLower) with
      | none => Except.error "ValueError: not in list"
      | some idx => Except.ok (idx + 1))

/-- numpy dtypes that the mask pipeline of __getitem__ touches. -/
inductive NpDType
  | uint8
  | float32
deriving DecidableEq, Repr

/-- A rank-3 numpy array: three dimensions, a dtype tag, and the element at
each index triple (uint8 pixel values embedded into the rationals; the cast
to float32 is exact on them). -/
structure NpArray3 where
  d0 : Nat
  d1 : Nat
  d2 : Nat
  dtype : NpDType
  val : Nat → Nat → Nat → ℚ

/-- The shape tuple of a rank-3 array. -/
def shape3 (x : NpArray3) : List Nat := [x.d0, x.d1, x.d2]

/-- np.expand_dims(cv2.imread(path, 0), axis=-1): the grayscale (H, W) image
as an (H, W, 1) uint8 array. -/
def expandDimsLast (hgt wid : Nat) (g : Nat → Nat → ℚ) : NpArray3 :=
  ⟨hgt, wid, 1, NpDType.uint8, fun i j _ => g i j⟩

/-- to_torch of src/dataset.py line 94-95:
torch.from_numpy(x.transpose(2, 0, 1).astype(float32)). Axis permutation
(2, 0, 1) and a cast to float32. -/
def to_torch (x : NpArray3) : NpArray3 :=
  ⟨x.d2, x.d0, x.d1, NpDType.float32, fun c i j => x.val i j c⟩

/-- The mask tensor returned by SynpickDataset.__getitem__ for a grayscale
mask image of size (hgt, wid): expand_dims, then the optional augmentation
(an arbitrary array-to-array map, as albumentations is external), then
to_torch. -/
def synpickGetItemMask (aug : Option (NpArray3 → NpArray3)) (hgt wid : Nat)
    (g : Nat → Nat → ℚ) : NpArray3 :=
  let mask := expandDimsLast hgt wid g
  let mask2 := match aug with
    | some f => f mask
    | none => mask
  to_torch mask2

/-! ## Value-range adapters and config compatibility (src/vp_suite/utils/utils.py) -/

/-- A (min, max) tensor value range. -/
structure ValueRange where
  lo : ℚ
  hi : ℚ
deriving DecidableEq

/-- ScaleToModel.forward: map img from the test range into [0, 1] and then
into the model range. -/
def scaleToModel (m t : ValueRange) (img : ℚ) : ℚ :=
  (img - t.lo) / (t.hi - t.lo) * (m.hi - m.lo) + m.lo

/-- ScaleToTest.forward: map img from the model range into [0, 1] and then
into the test range. -/
def scaleToTest (m t : ValueRange) (img : ℚ) : ℚ :=
  (img - m.lo) / (m.hi - m.lo) * (t.hi - t.lo) + t.lo

/-- The adapter modules check_model_compatibility can append. -/
inductive VPTransform
  | scaleToModelT (mvr tvr : ValueRange)
  | scaleToTestT (mvr tvr : ValueRange)
  | resizeT (hgt wid : Nat)
deriving DecidableEq

/-- Whether a transform is a ScaleToModel instance. -/
def VPTransform.isScaleToModelT : VPTransform → Bool
  | VPTransform.scaleToModelT _ _ => true
  | _ => false

/-- Whether a transform is a ScaleToTest instance. -/
def VPTransform.isScaleToTestT : VPTransform → Bool
  | VPTransform.scaleToTestT _ _ => true
  | _ => false

/-- The fields of model_config that check_model_compatibility reads. -/
structure VPModelConfig where
  tensor_value_range : ValueRange
  use_actions : Bool
  action_size : Nat
  img_shape : Nat × Nat × Nat
  context_frames : Nat
  pred_frames : Nat

/-- The fields of run_config that check_model_compatibility reads;
context_frames and pred_frames may be None. -/
structure VPRunConfig where
  tensor_value_range : ValueRange
  use_actions : Bool
  action_size : Nat
  img_shape : Nat × Nat × Nat
  context_frames : Option Nat
  pred_frames : Option Nat

/-- The model attributes check_model_compatibility reads. -/
structure VPModel where
  can_handle_actions : Bool
  min_context_frames : Nat

/-- The running pre- and postprocessing transform lists. -/
def VPPipelines := List VPTransform × List VPTransform

/-- The value-range section of check_model_compatibility (utils.py lines
109-115): when the ranges differ, raise in strict mode, else append one
ScaleToModel to preprocessing and one ScaleToTest to postprocessing. -/
def vrStep (mc : VPModelConfig) (rc : VPRunConfig) (strict : Bool)
    (acc : VPPipelines) : Except String VPPipelines :=
  if mc.tensor_value_range ≠ rc.tensor_value_range then
    if strict then Except.error "ERROR: model and run value ranges differ"
    else Except.ok
      (acc.1 ++ [VPTransform.scaleToModelT mc.tensor_value_range rc.tensor_value_range],
       acc.2 ++ [VPTransform.scaleToTestT mc.tensor_value_range rc.tensor_value_range])
  else Except.ok acc

/-- The action-conditioning section of check_model_compatibility (lines
117-134): errors only; the final warning branch appends nothing. -/
def actionStep (mc : VPModelConfig) (rc : VPRunConfig) (model : VPModel)
    (acc : VPPipelines) : Except String VPPipelines :=
  if model.can_handle_actions then
    if mc.use_actions then
      if !rc.use_actions then
        Except.error "ERROR: action-conditioned model needs use_actions true"
      else if mc.action_size ≠ rc.action_size then
        Except.error "AssertionError: action size mismatch"
      else Except.ok acc
    else
      if rc.use_actions then
        Except.error "ERROR: model was trained without using actions"
      else Except.ok acc
  else Except.ok acc

/-- The img_shape section of check_model_compatibility (lines 136-146):
channel mismatch always raises; a spatial mismatch raises in strict mode and
otherwise appends a Resize to each pipeline. -/
def imgShapeStep (mc : VPModelConfig) (rc : VPRunConfig) (strict : Bool)
    (acc : VPPipelines) : Except String VPPipelines :=
  if mc.img_shape.1 ≠ rc.img_shape.1 then
    Except.error "ERROR: channel count mismatch"
  else if mc.img_shape.2.1 ≠ rc.img_shape.2.1 ∨ mc.img_shape.2.2 ≠ rc.img_shape.2.2 then
    if strict then Except.error "ERROR: model and run img sizes differ"
    else Except.ok
      (acc.1 ++ [VPTransform.resizeT mc.img_shape.2.1 mc.img_shape.2.2],
       acc.2 ++ [VPTransform.resizeT rc.img_shape.2.1 rc.img_shape.2.2])
  else Except.ok acc

/-- The context-frames and pred-frames section (lines 148-156): defaults the
run values from the model config, or raises when the run asks for fewer
context frames than the model needs. -/
def framesStep (mc : VPModelConfig) (rc : VPRunConfig) (model : VPModel) :
    Except String VPRunConfig :=
  (match rc.context_frames with
    | none => Except.ok { rc with context_frames := some mc.context_frames }
    | some cf =>
      if cf < model.min_context_frames then
        Except.error "ERROR: model needs more context frames"
      else Except.ok rc).map
  (fun rc2 : VPRunConfig => match rc2.pred_frames with
    | none => { rc2 with pred_frames := some mc.pred_frames }
    | some _ => rc2)

/-- check_model_compatibility of src/vp_suite/utils/utils.py: runs the four
sections in source order over initially empty pipelines and returns the
final (preprocessing, postprocessing) pair. -/
def check_model_compatibility (mc : VPModelConfig) (rc : VPRunConfig)
    (model : VPModel) (strict_mode : Bool) :
    Except String (List VPTransform × List VPTransform) :=
  (vrStep mc rc strict_mode ([], [])).bind fun acc1 =>
  (actionStep mc rc model acc1).bind fun acc2 =>
  (imgShapeStep mc rc strict_mode acc2).bind fun acc3 =>
  (framesStep mc rc model).map fun _ => acc3

/-! ## Shape lemmas for the UNet layers -/

lemma conv2dShape_k3 (cin cout b c h w : Nat)
    (hc : c = cin) (hh : 1 ≤ h) (hw : 1 ≤ w) :
    conv2dShape cin cout 3 1 1 ⟨b, c, h, w⟩ = some ⟨b, cout, h, w⟩ := by
  unfold conv2dShape
  dsimp only
  rw [if_pos ⟨hc, by omega, by omega⟩]
  have h1 : (h + 2 * 1 - 3) / 1 + 1 = h := by omega
  have h2 : (w + 2 * 1 - 3) / 1 + 1 = w := by omega
  rw [h1, h2]

lemma conv2dShape_k1 (cin cout b c h w : Nat)
    (hc : c = cin) (hh : 1 ≤ h) (hw : 1 ≤ w) :
    conv2dShape cin cout 1 1 0 ⟨b, c, h, w⟩ = some ⟨b, cout, h, w⟩ := by
  unfold conv2dShape
  dsimp only
  rw [if_pos ⟨hc, by omega, by omega⟩]
  have h1 : (h + 2 * 0 - 1) / 1 + 1 = h := by omega
  have h2 : (w + 2 * 0 - 1) / 1 + 1 = w := by omega
  rw [h1, h2]

lemma doubleConvShape_eq (cin cout b c h w : Nat)
    (hc : c = cin) (hh : 1 ≤ h) (hw : 1 ≤ w) :
    doubleConvShape cin cout ⟨b, c, h, w⟩ = some ⟨b, cout, h, w⟩ := by
  unfold doubleConvShape
  rw [conv2dShape_k3 cin cout b c h w hc hh hw, Option.some_bind]
  exact conv2dShape_k3 cout cout b cout h w rfl hh hw

lemma maxPool2dShape_k2 (b c h w : Nat) (hh : 2 ≤ h) (hw : 2 ≤ w) :
    maxPool2dShape 2 2 ⟨b, c, h, w⟩ = some ⟨b, c, h / 2, w / 2⟩ := by
  unfold maxPool2dShape
  dsimp only
  rw [if_pos ⟨hh, hw⟩]
  have h1 : (h - 2) / 2 + 1 = h / 2 := by omega
  have h2 : (w - 2) / 2 + 1 = w / 2 := by omega
  rw [h1, h2]

lemma unetDown_cons (f cin : Nat) (fs : List Nat) (b c h w : Nat)
    (hc : c = cin) (hh : 2 ≤ h) (hw : 2 ≤ w) :
    unetDown (f :: fs) cin ⟨b, c, h, w⟩ =
      (unetDown fs f ⟨b, f, h / 2, w / 2⟩).map
        (fun p => (⟨b, f, h, w⟩ :: p.1, p.2)) := by
  conv_lhs => rw [unetDown]
  rw [doubleConvShape_eq cin f b c h w hc (by omega) (by omega), Option.some_bind,
    maxPool2dShape_k2 b f h w hh hw, Option.some_bind]

lemma unetUp_cons (f sb sh sw xb xc xh xw : Nat) (rest : List (Nat × TensorShape))
    (hc : xc = f * 2) (hb : xb = sb) (hsh : 1 ≤ sh) (hsw : 1 ≤ sw) :
    unetUp ((f, ⟨sb, f, sh, sw⟩) :: rest) ⟨xb, xc, xh, xw⟩ =
      unetUp rest ⟨sb, f, sh, sw⟩ := by
  conv_lhs => rw [unetUp]
  unfold convTranspose2dShape
  dsimp only
  rw [if_pos hc]
  simp only [Option.some_bind]
  have hup2 : (if (⟨xb, f, (xh - 1) * 2 + 2, (xw - 1) * 2 + 2⟩ : TensorShape) =
      ⟨sb, f, sh, sw⟩ then (⟨xb, f, (xh - 1) * 2 + 2, (xw - 1) * 2 + 2⟩ : TensorShape)
      else tfResizeShape sh sw ⟨xb, f, (xh - 1) * 2 + 2, (xw - 1) * 2 + 2⟩) =
      ⟨sb, f, sh, sw⟩ := by
    by_cases hcase : (⟨xb, f, (xh - 1) * 2 + 2, (xw - 1) * 2 + 2⟩ : TensorShape) =
        ⟨sb, f, sh, sw⟩
    · rw [if_pos hcase, hcase]
    · rw [if_neg hcase]
      unfold tfResizeShape
      simp [hb]
  rw [hup2]
  unfold catChannels
  rw [if_pos ⟨rfl, rfl, rfl⟩, Option.some_bind]
  rw [doubleConvShape_eq (f * 2) f sb (f + f) sh sw (by omega) hsh hsw, Option.some_bind]

/-- The central shape fact: for the UNet of seg_model.py with its feature
widths [64, 128, 256, 512] (encoder depth 4), any input channel count, any
class count K and any input of spatial size at least 16 in each dimension,
the forward pass succeeds and its output shape is (b, K, h, w): every decoder
stage ends at the spatial size of its skip connection, whether or not the
pooled sizes divided evenly. -/
lemma unetShape_general (cin K b h w : Nat) (hh : 16 ≤ h) (hw : 16 ≤ w) :
    unetForwardShape [64, 128, 256, 512] cin K ⟨b, cin, h, w⟩ = some ⟨b, K, h, w⟩ := by
  unfold unetForwardShape
  rw [(by decide : ([64, 128, 256, 512] : List Nat).getLast? = some 512), Option.some_bind,
    (by decide : ([64, 128, 256, 512] : List Nat).head? = some 64), Option.some_bind]
  rw [unetDown_cons 64 cin [128, 256, 512] b cin h w rfl (by omega) (by omega)]
  rw [unetDown_cons 128 64 [256, 512] b 64 (h / 2) (w / 2) rfl (by omega) (by omega)]
  rw [unetDown_cons 256 128 [512] b 128 (h / 2 / 2) (w / 2 / 2) rfl (by omega) (by omega)]
  rw [unetDown_cons 512 256 [] b 256 (h / 2 / 2 / 2) (w / 2 / 2 / 2) rfl (by omega) (by omega)]
  simp only [unetDown, Option.map_some', Option.some_bind]
  rw [doubleConvShape_eq 512 (512 * 2) b 512 (h / 2 / 2 / 2 / 2) (w / 2 / 2 / 2 / 2) rfl
    (by omega) (by omega), Option.some_bind]
  simp only [List.reverse_cons, List.reverse_nil, List.nil_append, List.cons_append,
    List.zip_cons_cons, List.zip_nil_right]
  rw [unetUp_cons 512 b (h / 2 / 2 / 2) (w / 2 / 2 / 2) b (512 * 2)
    (h / 2 / 2 / 2 / 2) (w / 2 / 2 / 2 / 2) _ rfl rfl (by omega) (by omega)]
  rw [unetUp_cons 256 b (h / 2 / 2) (w / 2 / 2) b 512 (h / 2 / 2 / 2) (w / 2 / 2 / 2) _
    rfl rfl (by omega) (by omega)]
  rw [unetUp_cons 128 b (h / 2) (w / 2) b 256 (h / 2 / 2) (w / 2 / 2) _
    rfl rfl (by omega) (by omega)]
  rw [unetUp_cons 64 b h w b 128 (h / 2) (w / 2) _ rfl rfl (by omega) (by omega)]
  simp only [unetUp, Option.some_bind]
  exact conv2dShape_k1 64 K b 64 h w rfl (by omega) (by omega)

/-- C1: for the depth-4 UNet, every input whose spatial size (h, w) is not
divisible by 2^4 = 16 (both dimensions at least 16 so that every pooling
stage is legal) still yields an output of spatial size exactly (h, w): the
decoder resizes each upsampled tensor to its skip connection's spatial
dimensions, so the final output shape is (b, K, h, w). -/
theorem C1_unet_nondivisible_shape (cin K b h w : Nat)
    (hh : 16 ≤ h) (hw : 16 ≤ w) (hnd : ¬ (h % 16 = 0 ∧ w % 16 = 0)) :
    unetForwardShape [64, 128, 256, 512] cin K ⟨b, cin, h, w⟩ = some ⟨b, K, h, w⟩ :=
  unetShape_general cin K b h w hh hw

/-- C1 witness: the 93 x 124 input of the spec, with 3 input channels and 22
classes. -/
theorem C1_unet_nondivisible_shape_witness :
    16 ≤ 93 ∧ 16 ≤ 124 ∧ ¬ ((93 : Nat) % 16 = 0 ∧ (124 : Nat) % 16 = 0) ∧
    unetForwardShape [64, 128, 256, 512] 3 22 ⟨1, 3, 93, 124⟩ = some ⟨1, 22, 93, 124⟩ :=
  ⟨by decide, by decide, by decide,
    C1_unet_nondivisible_shape 3 22 1 93 124 (by decide) (by decide) (by decide)⟩

/-- C4: for the depth-4 UNet with in_channels 3 and class count K, every
input of shape (b, 3, h, w) with h and w positive and exactly divisible by
2^4 = 16 maps to an output of shape (b, K, h, w). -/
theorem C4_unet_divisible_shape (K b h w : Nat)
    (hhpos : 0 < h) (hwpos : 0 < w) (hhd : 16 ∣ h) (hwd : 16 ∣ w) :
    unetForwardShape [64, 128, 256, 512] 3 K ⟨b, 3, h, w⟩ = some ⟨b, K, h, w⟩ :=
  unetShape_general 3 K b h w (Nat.le_of_dvd hhpos hhd) (Nat.le_of_dvd hwpos hwd)

/-- C4 witness: feature widths [64, 128, 256, 512], class count 22, input
shape (1, 3, 256, 256), output shape (1, 22, 256, 256). -/
theorem C4_unet_divisible_shape_witness :
    0 < 256 ∧ (16 : Nat) ∣ 256 ∧
    unetForwardShape [64, 128, 256, 512] 3 22 ⟨1, 3, 256, 256⟩ = some ⟨1, 22, 256, 256⟩ :=
  ⟨by decide, by decide,
    C4_unet_divisible_shape 22 1 256 256 (by decide) (by decide) (by decide) (by decide)⟩

/-! ## Checkpointing and learning-rate lemmas -/

lemma checkpointStep_fst (best a : ℚ) : (checkpointStep best a).1 = max best a := by
  unfold checkpointStep
  split
  · exact (max_eq_right (le_of_lt (by assumption))).symm
  · exact (max_eq_left (not_lt.mp (by assumption))).symm

lemma trainFold_best_le (accs : List ℚ) : ∀ best : ℚ, best ≤ (trainFold accs best).1 := by
  induction accs with
  | nil =>
    intro best
    exact le_refl best
  | cons a rest ih =>
    intro best
    calc best ≤ max best a := le_max_left best a
      _ = (checkpointStep best a).1 := (checkpointStep_fst best a).symm
      _ ≤ (trainFold rest (checkpointStep best a).1).1 := ih _
      _ = (trainFold (a :: rest) best).1 := rfl

lemma trainFold_fst_eq (accs : List ℚ) :
    ∀ best : ℚ, (trainFold accs best).1 = accs.foldl max best := by
  induction accs with
  | nil =>
    intro best
    rfl
  | cons a rest ih =>
    intro best
    show (trainFold rest (checkpointStep best a).1).1 = (a :: rest).foldl max best
    rw [ih, checkpointStep_fst]
    rfl

lemma trainFold_no_improvement (accs : List ℚ) :
    ∀ best : ℚ, (∀ a ∈ accs, a ≤ best) →
      trainFold accs best = (best, List.replicate accs.length false) := by
  induction accs with
  | nil =>
    intro best _
    rfl
  | cons a rest ih =>
    intro best hle
    have ha : a ≤ best := hle a (List.mem_cons_self a rest)
    have hs : checkpointStep best a = (best, false) := by
      unfold checkpointStep
      rw [if_neg (not_lt.mpr ha)]
    simp only [trainFold, hs]
    rw [ih best (fun x hx => hle x (List.mem_cons_of_mem a hx))]
    rfl

lemma any_id_replicate_false (n : Nat) :
    (List.replicate n false).any (fun x => x) = false := by
  induction n with
  | zero => rfl
  | succ k ih => simpa [List.replicate_succ] using ih

/-- C2: across a run, best-accuracy-so-far never decreases; the checkpoint is
written in an epoch if and only if that epoch's validation accuracy strictly
exceeds best-so-far; the final best is the running maximum of the initial
best and all accuracies; and on the accuracy trace [0.5, 0.7, 0.6, 0.9] with
initial best 0 the writes happen exactly after epochs 0, 1 and 3 and the
final best is 0.9. -/
theorem C2_checkpoint_invariant :
    (∀ (accs : List ℚ) (best : ℚ), best ≤ (trainFold accs best).1) ∧
    (∀ (best acc : ℚ), (checkpointStep best acc).2 = true ↔ best < acc) ∧
    (∀ (accs : List ℚ) (best : ℚ), (trainFold accs best).1 = accs.foldl max best) ∧
    trainFold [1/2, 7/10, 3/5, 9/10] 0 = (9/10, [true, true, false, true]) := by
  refine ⟨fun accs best => trainFold_best_le accs best, ?_,
    fun accs best => trainFold_fst_eq accs best, ?_⟩
  · intro best acc
    unfold checkpointStep
    split <;> simp_all
  · norm_num [trainFold, checkpointStep]

/-- C3 counterexample: in a 30-epoch run with initial learning rate 1, the
rate effective during the training batches of epoch 25 is 1, not 0.1 * 1:
main multiplies the rate at the END of the epoch-25 body, after that epoch
has already trained. -/
theorem C3_lr_epoch25_counterexample :
    (epochLrs 30 0 1).1.get? 25 = some 1 ∧ (1 : ℚ) ≠ 1 / 10 * 1 := by
  constructor
  · rfl
  · norm_num

/-- C3 amended: for a 30-epoch run with initial rate r, the effective rate is
r for epoch indices 0 through 25 and r * 0.1 for indices 26 through 29, and
the decay statement executes exactly once, at epoch index 25. -/
theorem C3_lr_schedule_amended (r : ℚ) :
    (epochLrs 30 0 r).1 = List.replicate 26 r ++ List.replicate 4 (r * (1 / 10)) ∧
    (epochLrs 30 0 r).2 = [25] := by
  constructor <;> rfl

/-- C5: the SynpickDataset(data_dir=..., augmentation=...) call of main binds
the keyword data_dir, which is not a parameter of SynpickDataset.__init__,
so Python raises a TypeError whatever the directory value is; and even a
call binding the real parameters keeps the default classes=None, over which
line 22 of dataset.py iterates, raising a TypeError as well. -/
theorem C5_main_dataset_call_fails :
    pythonBindKwargs synpickRequiredParams synpickOptionalParams mainSynpickCallKwargs =
      Except.error "TypeError: unexpected keyword argument data_dir" ∧
    synpickClassValues none = Except.error "TypeError: NoneType is not iterable" :=
  ⟨rfl, rfl⟩

/-- C10: when no epoch's validation accuracy strictly exceeds the initial
best of 0, the training loop never writes the checkpoint file, the run
directory stays empty, and the unconditional torch.load of best_model.pth in
the final-testing step fails; main has no handler for this. -/
theorem C10_missing_checkpoint_load_fails (accs : List ℚ)
    (hle : ∀ a ∈ accs, a ≤ 0) :
    (trainFold accs 0).2.any (fun x => x) = false ∧
    runDirFiles accs = [] ∧
    torchLoadBest (runDirFiles accs) = Except.error "FileNotFoundError" := by
  have h := trainFold_no_improvement accs 0 hle
  have hany : (trainFold accs 0).2.any (fun x => x) = false := by
    rw [h]
    exact any_id_replicate_false accs.length
  have hfiles : runDirFiles accs = [] := by
    unfold runDirFiles
    rw [hany]
    simp
  refine ⟨hany, hfiles, ?_⟩
  rw [hfiles]
  rfl

/-- C10 witness: a two-epoch run whose validation accuracies are both 0. -/
theorem C10_missing_checkpoint_load_fails_witness :
    (∀ a ∈ ([0, 0] : List ℚ), a ≤ 0) ∧
    ((trainFold [0, 0] 0).2.any (fun x => x) = false ∧
      runDirFiles [0, 0] = [] ∧
      torchLoadBest (runDirFiles [0, 0]) = Except.error "FileNotFoundError") :=
  ⟨by norm_num, C10_missing_checkpoint_load_fails [0, 0] (by norm_num)⟩

/-- C6 counterexample: for a 4 x 5 grayscale mask with no augmentation, the
tensor __getitem__ yields has shape (1, 4, 5) — rank 3, not the claimed rank
2 — and dtype float32, not an integer dtype: to_torch transposes the
(H, W, 1) array to (1, H, W) and casts to float32. -/
theorem C6_mask_rank_counterexample :
    shape3 (synpickGetItemMask none 4 5 (fun _ _ => 0)) = [1, 4, 5] ∧
    (shape3 (synpickGetItemMask none 4 5 (fun _ _ => 0))).length ≠ 2 ∧
    (synpickGetItemMask none 4 5 (fun _ _ => 0)).dtype = NpDType.float32 :=
  ⟨rfl, by decide, rfl⟩

/-- C6 amended: every mask tensor yielded by __getitem__ is the to_torch
image of the (possibly augmented) rank-3 mask array: its shape is the
(d2, d0, d1) permutation of that array's shape — (1, height, width) in the
unaugmented case — its dtype is float32, and its elements are the mask's
pixel values unchanged (so they lie in [0, K-1] exactly when the mask file's
values do; no range check is performed). -/
theorem C6_mask_layout_amended :
    (∀ x : NpArray3, shape3 (to_torch x) = [x.d2, x.d0, x.d1] ∧
      (to_torch x).dtype = NpDType.float32 ∧
      ∀ c i j, (to_torch x).val c i j = x.val i j c) ∧
    (∀ (hgt wid : Nat) (g : Nat → Nat → ℚ),
      shape3 (synpickGetItemMask none hgt wid g) = [1, hgt, wid] ∧
      (synpickGetItemMask none hgt wid g).dtype = NpDType.float32 ∧
      ∀ i j, (synpickGetItemMask none hgt wid g).val 0 i j = g i j) :=
  ⟨fun _ => ⟨rfl, rfl, fun _ _ _ => rfl⟩, fun _ _ _ => ⟨rfl, rfl, fun _ _ => rfl⟩⟩

/-- C7: for every index valid in both sorted listings, __getitem__ pairs the
i-th element of the sorted image listing with the i-th element of the
independently sorted mask listing; and when the listings diverge — here two
image files against one mask file — index 0 still succeeds silently, pairing
a.png with b.png, instead of raising an error. -/
theorem C7_pairing_by_independent_sorts :
    (∀ (dI dM : String) (imgs masks : List String) (i : Nat),
      i < imgs.length → i < masks.length →
      ∃ a b, (pySorted imgs).get? i = some a ∧ (pySorted masks).get? i = some b ∧
        synpickGetPair (synpickInit dI dM imgs masks) i =
          some (osPathJoin dI a, osPathJoin dM b)) ∧
    synpickGetPair (synpickInit "img" "msk" ["a.png", "b.png"] ["b.png"]) 0 =
      some ("img/a.png", "msk/b.png") := by
  constructor
  · intro dI dM imgs masks i hi hm
    have hlen1 : i < (pySorted imgs).length := by
      unfold pySorted
      simpa using hi
    have hlen2 : i < (pySorted masks).length := by
      unfold pySorted
      simpa using hm
    obtain ⟨a, ha⟩ : ∃ a, (pySorted imgs).get? i = some a := by
      cases hga : (pySorted imgs).get? i with
      | none => exact absurd (List.get?_eq_none.mp hga) (by omega)
      | some a => exact ⟨a, rfl⟩
    obtain ⟨b, hb⟩ : ∃ b, (pySorted masks).get? i = some b := by
      cases hgb : (pySorted masks).get? i with
      | none => exact absurd (List.get?_eq_none.mp hgb) (by omega)
      | some b => exact ⟨b, rfl⟩
    refine ⟨a, b, ha, hb, ?_⟩
    unfold synpickGetPair synpickInit
    dsimp only
    rw [List.get?_map, List.get?_map, ha, hb]
    rfl
  · simp only [synpickGetPair, synpickInit, pySorted, osPathJoin]
    norm_num [List.mergeSort, List.merge]
    decide

/-- C8: for any model and test value ranges with distinct endpoints,
ScaleToModel followed by ScaleToTest is the identity, and so is ScaleToTest
followed by ScaleToModel, over exact rational arithmetic. -/
theorem C8_scale_transforms_mutually_inverse (m t : ValueRange) (x : ℚ)
    (hm : m.lo ≠ m.hi) (ht : t.lo ≠ t.hi) :
    scaleToTest m t (scaleToModel m t x) = x ∧
    scaleToModel m t (scaleToTest m t x) = x := by
  obtain ⟨mlo, mhi⟩ := m
  obtain ⟨tlo, thi⟩ := t
  simp only at hm ht
  have hm2 : mhi - mlo ≠ 0 := sub_ne_zero.mpr (Ne.symm hm)
  have ht2 : thi - tlo ≠ 0 := sub_ne_zero.mpr (Ne.symm ht)
  constructor <;>
  · unfold scaleToModel scaleToTest
    dsimp only
    field_simp
    ring

/-- C8 witness: model range (0, 1), test range (-1, 1), image value 1/3. -/
theorem C8_scale_transforms_mutually_inverse_witness :
    ((⟨0, 1⟩ : ValueRange).lo ≠ (⟨0, 1⟩ : ValueRange).hi) ∧
    ((⟨-1, 1⟩ : ValueRange).lo ≠ (⟨-1, 1⟩ : ValueRange).hi) ∧
    (scaleToTest ⟨0, 1⟩ ⟨-1, 1⟩ (scaleToModel ⟨0, 1⟩ ⟨-1, 1⟩ (1/3)) = 1/3 ∧
      scaleToModel ⟨0, 1⟩ ⟨-1, 1⟩ (scaleToTest ⟨0, 1⟩ ⟨-1, 1⟩ (1/3)) = 1/3) :=
  ⟨by norm_num, by norm_num,
    C8_scale_transforms_mutually_inverse ⟨0, 1⟩ ⟨-1, 1⟩ (1/3)
      (by norm_num) (by norm_num)⟩

/-! ## check_model_compatibility lemmas -/

lemma isScaleToModelT_resizeT (a b : Nat) :
    (VPTransform.resizeT a b).isScaleToModelT = false := rfl

lemma isScaleToTestT_resizeT (a b : Nat) :
    (VPTransform.resizeT a b).isScaleToTestT = false := rfl

lemma actionStep_ok (mc : VPModelConfig) (rc : VPRunConfig) (model : VPModel)
    (acc acc2 : VPPipelines) :
    actionStep mc rc model acc = Except.ok acc2 → acc2 = acc := by
  unfold actionStep
  intro h
  split_ifs at h <;> simp_all

lemma imgShapeStep_ok_counts (mc : VPModelConfig) (rc : VPRunConfig) (strict : Bool)
    (acc acc2 : VPPipelines) :
    imgShapeStep mc rc strict acc = Except.ok acc2 →
      acc2.1.countP VPTransform.isScaleToModelT = acc.1.countP VPTransform.isScaleToModelT ∧
      acc2.2.countP VPTransform.isScaleToTestT = acc.2.countP VPTransform.isScaleToTestT := by
  unfold imgShapeStep
  intro h
  split_ifs at h <;>
    first
      | exact Except.noConfusion h
      | (rw [Except.ok.injEq] at h
         subst h
         constructor <;>
           simp [List.countP_append, List.countP_cons, isScaleToModelT_resizeT,
             isScaleToTestT_resizeT])

lemma actionStep_error_msg (mc : VPModelConfig) (rc : VPRunConfig) (model : VPModel)
    (acc : VPPipelines) (e : String) :
    actionStep mc rc model acc = Except.error e →
      e = "ERROR: action-conditioned model needs use_actions true" ∨
      e = "AssertionError: action size mismatch" ∨
      e = "ERROR: model was trained without using actions" := by
  unfold actionStep
  intro h
  split_ifs at h <;> simp_all

lemma imgShapeStep_error_msg (mc : VPModelConfig) (rc : VPRunConfig) (strict : Bool)
    (acc : VPPipelines) (e : String) :
    imgShapeStep mc rc strict acc = Except.error e →
      e = "ERROR: channel count mismatch" ∨
      e = "ERROR: model and run img sizes differ" := by
  unfold imgShapeStep
  intro h
  split_ifs at h <;> simp_all

lemma framesStep_error_msg (mc : VPModelConfig) (rc : VPRunConfig) (model : VPModel)
    (e : String) :
    framesStep mc rc model = Except.error e →
      e = "ERROR: model needs more context frames" := by
  unfold framesStep
  intro h
  rcases rc with ⟨tvr, ua, asz, ish, cf, pf⟩
  dsimp only at h
  cases cf with
  | none => simp [Except.map] at h
  | some k =>
    dsimp only at h
    split_ifs at h <;> simp_all [Except.map]

/-- C9: in check_model_compatibility, when the tensor value ranges of the
model and the run differ, strict mode raises the value-range error, and
non-strict mode puts exactly one ScaleToModel into the returned
preprocessing sequence and exactly one ScaleToTest into the returned
postprocessing sequence; when the ranges agree, no such transform is
appended and the value-range error is never raised. -/
theorem C9_value_range_compatibility :
    (∀ (mc : VPModelConfig) (rc : VPRunConfig) (model : VPModel),
      mc.tensor_value_range ≠ rc.tensor_value_range →
      check_model_compatibility mc rc model true =
        Except.error "ERROR: model and run value ranges differ") ∧
    (∀ (mc : VPModelConfig) (rc : VPRunConfig) (model : VPModel)
        (strict : Bool) (pre post : List VPTransform),
      mc.tensor_value_range ≠ rc.tensor_value_range →
      check_model_compatibility mc rc model strict = Except.ok (pre, post) →
      pre.countP VPTransform.isScaleToModelT = 1 ∧
      post.countP VPTransform.isScaleToTestT = 1) ∧
    (∀ (mc : VPModelConfig) (rc : VPRunConfig) (model : VPModel)
        (strict : Bool) (pre post : List VPTransform),
      mc.tensor_value_range = rc.tensor_value_range →
      check_model_compatibility mc rc model strict = Except.ok (pre, post) →
      pre.countP VPTransform.isScaleToModelT = 0 ∧
      post.countP VPTransform.isScaleToTestT = 0) ∧
    (∀ (mc : VPModelConfig) (rc : VPRunConfig) (model : VPModel) (strict : Bool),
      mc.tensor_value_range = rc.tensor_value_range →
      check_model_compatibility mc rc model strict ≠
        Except.error "ERROR: model and run value ranges differ") := by
  have hvne : ∀ (mc : VPModelConfig) (rc : VPRunConfig),
      mc.tensor_value_range ≠ rc.tensor_value_range →
      vrStep mc rc false ([], []) = Except.ok
        ([VPTransform.scaleToModelT mc.tensor_value_range rc.tensor_value_range],
         [VPTransform.scaleToTestT mc.tensor_value_range rc.tensor_value_range]) := by
    intro mc rc hne
    simp [vrStep, hne]
  have hveq : ∀ (mc : VPModelConfig) (rc : VPRunConfig) (strict : Bool),
      mc.tensor_value_range = rc.tensor_value_range →
      vrStep mc rc strict ([], []) = Except.ok ([], []) := by
    intro mc rc strict heq
    simp [vrStep, heq]
  have herr : ∀ (mc : VPModelConfig) (rc : VPRunConfig) (model : VPModel),
      mc.tensor_value_range ≠ rc.tensor_value_range →
      check_model_compatibility mc rc model true =
        Except.error "ERROR: model and run value ranges differ" := by
    intro mc rc model hne
    have h1 : vrStep mc rc true ([], []) =
        Except.error "ERROR: model and run value ranges differ" := by
      simp [vrStep, hne]
    unfold check_model_compatibility
    rw [h1]
    rfl
  have hcount : ∀ (mc : VPModelConfig) (rc : VPRunConfig) (model : VPModel)
      (strict : Bool) (pre post : List VPTransform) (acc1 : VPPipelines),
      vrStep mc rc strict ([], []) = Except.ok acc1 →
      check_model_compatibility mc rc model strict = Except.ok (pre, post) →
      pre.countP VPTransform.isScaleToModelT = acc1.1.countP VPTransform.isScaleToModelT ∧
      post.countP VPTransform.isScaleToTestT = acc1.2.countP VPTransform.isScaleToTestT := by
    intro mc rc model strict pre post acc1 hv h
    unfold check_model_compatibility at h
    rw [hv] at h
    simp only [Except.bind] at h
    cases ha : actionStep mc rc model acc1 with
    | error e =>
      rw [ha] at h
      simp [Except.bind] at h
    | ok acc2 =>
      rw [ha] at h
      have hacc2 : acc2 = acc1 := actionStep_ok mc rc model acc1 acc2 ha
      simp only [Except.bind] at h
      cases hi : imgShapeStep mc rc strict acc2 with
      | error e =>
        rw [hi] at h
        simp [Except.bind] at h
      | ok acc3 =>
        rw [hi] at h
        have hcounts := imgShapeStep_ok_counts mc rc strict acc2 acc3 hi
        simp only [Except.bind] at h
        cases hf : framesStep mc rc model with
        | error e =>
          rw [hf] at h
          simp [Except.map] at h
        | ok rc2 =>
          rw [hf] at h
          simp only [Except.map] at h
          cases h
          rw [hacc2] at hcounts
          exact ⟨hcounts.1, hcounts.2⟩
  refine ⟨herr, ?_, ?_, ?_⟩
  · intro mc rc model strict pre post hne h
    cases strict with
    | true =>
      rw [herr mc rc model hne] at h
      exact Except.noConfusion h
    | false =>
      have hc := hcount mc rc model false pre post _ (hvne mc rc hne) h
      simpa [List.countP_cons, List.countP_nil, VPTransform.isScaleToModelT,
        VPTransform.isScaleToTestT] using hc
  · intro mc rc model strict pre post heq h
    have hc := hcount mc rc model strict pre post _ (hveq mc rc strict heq) h
    simpa using hc
  · intro mc rc model strict heq h
    unfold check_model_compatibility at h
    rw [hveq mc rc strict heq] at h
    simp only [Except.bind] at h
    cases ha : actionStep mc rc model ([], []) with
    | error e =>
      rw [ha] at h
      simp only [Except.bind, Except.error.injEq] at h
      rcases actionStep_error_msg mc rc model ([], []) e ha with h1 | h1 | h1 <;>
        (rw [h1] at h; exact absurd h (by decide))
    | ok acc2 =>
      rw [ha] at h
      simp only [Except.bind] at h
      cases hi : imgShapeStep mc rc strict acc2 with
      | error e =>
        rw [hi] at h
        simp only [Except.bind, Except.error.injEq] at h
        rcases imgShapeStep_error_msg mc rc strict acc2 e hi with h1 | h1 <;>
          (rw [h1] at h; exact absurd h (by decide))
      | ok acc3 =>
        rw [hi] at h
        simp only [Except.bind] at h
        cases hf : framesStep mc rc model with
        | error e =>
          rw [hf] at h
          simp only [Except.map, Except.error.injEq] at h
          rw [framesStep_error_msg mc rc model e hf] at h
          exact absurd h (by decide)
        | ok rc2 =>
          rw [hf] at h
          simp only [Except.map] at h
          exact Except.noConfusion h
